import Mathlib

/-!
Verification development for a CRUD service over an `items` table
(`src/db.rs`, `src/models.rs`, `src/main.rs`).

The relational store is embedded as a list of rows plus a counter for the
next store-assigned id.  Each repository operation returns
`Except DbError _`, mirroring the Rust `Result<_, DbError>` types; the
underlying SQL is modelled by pure list operations (a query that
executes on the store succeeds, so the embedded operations only produce
`.ok` values — the error path for pool acquisition is modelled
separately with an abstract `connect` function).

The monetary field `price` is `f64` in the source; no floating-point
arithmetic is ever performed on it (it is only copied, defaulted and
compared), so it is embedded as `Rat`.  Timestamps are embedded as `Int`.
-/

namespace Crud2

/-- `models.rs`: the persisted `Item` entity. -/
structure Item where
  id : Int
  name : String
  description : Option String
  quantity : Int
  price : Rat
  created_at : Int
deriving DecidableEq, Repr

/-- `models.rs`: transient creation input; `name` required, rest optional. -/
structure CreateItem where
  name : String
  description : Option String
  quantity : Option Int
  price : Option Rat
deriving DecidableEq, Repr

/-- `models.rs`: transient update input; all fields optional. -/
structure UpdateItem where
  name : Option String
  description : Option String
  quantity : Option Int
  price : Option Rat
deriving DecidableEq, Repr

/-- `db.rs`: `sqlx::Error`, abstracted to the failure classes relevant to
pool acquisition (a malformed URL is reported by the driver as a
configuration error; connectivity and authentication failures as
I/O/database errors). -/
inductive SqlxError where
  | Configuration (msg : String)
  | Io (msg : String)
  | Database (msg : String)
deriving DecidableEq, Repr

/-- `std::env::VarError`. -/
inductive VarError where
  | NotPresent
  | NotUnicode
deriving DecidableEq, Repr

/-- `db.rs`: `DbError`, the two-variant error enum
(`Sqlx(#[from] sqlx::Error)` and `EnvVar(#[from] std::env::VarError)`). -/
inductive DbError where
  | Sqlx (e : SqlxError)
  | EnvVar (e : VarError)
deriving DecidableEq, Repr

/-- The spec's error taxonomy: `ConfigError` is the configuration-variant
(`EnvVar`); `Sqlx` is the spec's `StoreError` (any failure originating in
the persistence layer). -/
def DbError.isConfigError : DbError → Bool
  | .EnvVar _ => true
  | .Sqlx _ => false

/-- The connection pool handle produced by `get_db_pool`. -/
structure PgPool where
  url : String
  max_connections : Nat
deriving DecidableEq, Repr

/-- `db.rs` `get_db_pool`: reads `DATABASE_URL` from the environment
(`env::var`, failure converted to `DbError::EnvVar` by `?`), then connects
(`PgPoolOptions::new().max_connections(5).connect(&url)`, failure
converted to `DbError::Sqlx` by `?`).  The process environment and the
driver's connect step are abstracted as the parameters `env` and
`connect` (`connect url = some e` means the driver fails with `e`). -/
def get_db_pool (env : String → Except VarError String)
    (connect : String → Option SqlxError) : Except DbError PgPool :=
  match env "DATABASE_URL" with
  | .error e => .error (.EnvVar e)
  | .ok database_url =>
    match connect database_url with
    | some e => .error (.Sqlx e)
    | none => .ok { url := database_url, max_connections := 5 }

/-- The relational store: the `items` table as a list of rows, plus the
counter from which the store assigns the next primary key. -/
structure Store where
  rows : List Item
  next_id : Int
deriving DecidableEq, Repr

/-- `db.rs` `list_items`: `SELECT ... FROM items ORDER BY id`,
`fetch_all`. -/
def list_items (s : Store) : Except DbError (List Item) :=
  .ok (s.rows.insertionSort (fun a b => a.id ≤ b.id))

/-- `db.rs` `get_item`: `SELECT ... FROM items WHERE id = $1`,
`fetch_optional`. -/
def get_item (s : Store) (id : Int) : Except DbError (Option Item) :=
  .ok (s.rows.find? (fun it => it.id == id))

/-- `db.rs` `create_item`: defaults `quantity`/`price` via `unwrap_or`,
`INSERT ... RETURNING`; the store assigns `id` and `created_at` (the
insert-time clock is the parameter `now`). -/
def create_item (s : Store) (now : Int) (input : CreateItem) :
    Except DbError (Item × Store) :=
  let quantity := input.quantity.getD 0
  let price := input.price.getD 0
  let record : Item :=
    { id := s.next_id, name := input.name, description := input.description
      quantity := quantity, price := price, created_at := now }
  .ok (record, { rows := s.rows ++ [record], next_id := s.next_id + 1 })

/-- `db.rs` `update_item`: read the current row via `get_item`; if absent
return `Ok(None)`; otherwise merge (`unwrap_or` for `name`, `quantity`,
`price`; `Option::or` for `description`) and issue
`UPDATE items SET name,description,quantity,price WHERE id = $5
RETURNING ...` (only the four mutable columns are in the `SET` list). -/
def update_item (s : Store) (id : Int) (input : UpdateItem) :
    Except DbError (Option Item × Store) :=
  match get_item s id with
  | .error e => .error e
  | .ok none => .ok (none, s)
  | .ok (some existing) =>
    let new_name := input.name.getD existing.name
    let new_description := input.description.or existing.description
    let new_quantity := input.quantity.getD existing.quantity
    let new_price := input.price.getD existing.price
    let record : Item :=
      { existing with name := new_name, description := new_description
                      quantity := new_quantity, price := new_price }
    let rows := s.rows.map (fun it =>
      if it.id == id then
        { it with name := new_name, description := new_description
                  quantity := new_quantity, price := new_price }
      else it)
    .ok (some record, { s with rows := rows })

/-- `db.rs` `delete_item`: `DELETE FROM items WHERE id = $1`; returns
`rows_affected() > 0`. -/
def delete_item (s : Store) (id : Int) : Except DbError (Bool × Store) :=
  let removed := s.rows.any (fun it => it.id == id)
  .ok (removed, { s with rows := s.rows.filter (fun it => !(it.id == id)) })

/-- `main.rs` `ItemForm`: the deserialized form data of the web layer. -/
structure ItemForm where
  name : String
  description : Option String
  quantity : Option Int
  price : Option Rat
deriving DecidableEq, Repr

/-- `main.rs` `update_item_handler`: the `UpdateItem` it constructs from a
submitted form (`name: Some(form.name)`, the rest passed through). -/
def update_item_handler_input (form : ItemForm) : UpdateItem :=
  { name := some form.name, description := form.description
    quantity := form.quantity, price := form.price }

/-- The all-absent `UpdateItem` (every field `None`). -/
def emptyUpdate : UpdateItem :=
  { name := none, description := none, quantity := none, price := none }

/-- A concrete row used by the evaluation witnesses. -/
def sampleItem : Item :=
  { id := 1, name := "Widget", description := some "a widget", quantity := 5
    price := 10, created_at := 7 }

/-- A concrete one-row store used by the evaluation witnesses. -/
def sampleStore : Store := { rows := [sampleItem], next_id := 2 }

/-- An environment whose `DATABASE_URL` is present but not a valid
connection URL. -/
def malformedEnv : String → Except VarError String :=
  fun k => if k = "DATABASE_URL" then .ok "this is not a url" else .error .NotPresent

/-- The driver's connect step on a malformed URL: it fails while parsing
the connection string, reporting a configuration-class `sqlx::Error`. -/
def malformedConnect : String → Option SqlxError :=
  fun _ => some (.Configuration "invalid connection string")

/-- An environment with no `DATABASE_URL` set. -/
def absentEnv : String → Except VarError String :=
  fun _ => .error .NotPresent

instance : IsTotal Item (fun a b => a.id ≤ b.id) :=
  ⟨fun a b => Int.le_total a.id b.id⟩

instance : IsTrans Item (fun a b => a.id ≤ b.id) :=
  ⟨fun _ _ _ h h2 => le_trans h h2⟩

/-- C1: updating an existing item `I` with the all-absent `UpdateItem`
returns `Some` of a record whose four mutable fields equal those of `I`. -/
theorem update_empty_is_identity (s : Store) (I : Item)
    (h : get_item s I.id = .ok (some I)) :
    ∃ r s2, update_item s I.id emptyUpdate = .ok (some r, s2) ∧
      r.name = I.name ∧ r.description = I.description ∧
      r.quantity = I.quantity ∧ r.price = I.price := by
  unfold update_item
  rw [h]
  refine ⟨_, _, rfl, ?_, ?_, ?_, ?_⟩ <;> simp [emptyUpdate]

/-- Witness for C1 at a concrete one-row store. -/
theorem update_empty_is_identity_witness :
    ∃ r s2, update_item sampleStore sampleItem.id emptyUpdate
        = .ok (some r, s2) ∧
      r.name = sampleItem.name ∧ r.description = sampleItem.description ∧
      r.quantity = sampleItem.quantity ∧ r.price = sampleItem.price :=
  update_empty_is_identity sampleStore sampleItem rfl

/-- C2: updating an existing item `I` with an `UpdateItem` supplying only
`price = P` returns `Some` of a record equal to `I` on `name`,
`description` and `quantity` but with `price = P`. -/
theorem update_price_only (s : Store) (I : Item) (P : Rat)
    (h : get_item s I.id = .ok (some I)) :
    ∃ r s2, update_item s I.id ⟨none, none, none, some P⟩
        = .ok (some r, s2) ∧
      r.name = I.name ∧ r.description = I.description ∧
      r.quantity = I.quantity ∧ r.price = P := by
  unfold update_item
  rw [h]
  refine ⟨_, _, rfl, ?_, ?_, ?_, ?_⟩ <;> simp

/-- Witness for C2 at a concrete one-row store and `P = 25/2`. -/
theorem update_price_only_witness :
    ∃ r s2, update_item sampleStore sampleItem.id ⟨none, none, none, some (25 / 2)⟩
        = .ok (some r, s2) ∧
      r.name = sampleItem.name ∧ r.description = sampleItem.description ∧
      r.quantity = sampleItem.quantity ∧ r.price = 25 / 2 :=
  update_price_only sampleStore sampleItem (25 / 2) rfl

/-- C3: in the update merge a provided description replaces the stored one,
an absent one retains it, and the post-update description is `none` exactly
when both the input's and the existing description are `none` (so update
never turns a non-null description null). -/
theorem update_description_merge (s : Store) (I : Item) (input : UpdateItem)
    (h : get_item s I.id = .ok (some I)) :
    ∃ r s2, update_item s I.id input = .ok (some r, s2) ∧
      (∀ d, input.description = some d → r.description = some d) ∧
      (input.description = none → r.description = I.description) ∧
      (r.description = none ↔ input.description = none ∧ I.description = none) := by
  unfold update_item
  rw [h]
  refine ⟨_, _, rfl, ?_, ?_, ?_⟩
  · intro d hd
    simp [hd]
  · intro hd
    simp [hd]
  · cases hi : input.description <;> simp [hi]

/-- Witness for C3 at a concrete one-row store and an input providing a
description. -/
theorem update_description_merge_witness :
    ∃ r s2, update_item sampleStore sampleItem.id ⟨none, some "new", none, none⟩
        = .ok (some r, s2) ∧
      (∀ d, (some "new" : Option String) = some d → r.description = some d) ∧
      ((some "new" : Option String) = none → r.description = sampleItem.description) ∧
      (r.description = none ↔ (some "new" : Option String) = none ∧
        sampleItem.description = none) :=
  update_description_merge sampleStore sampleItem ⟨none, some "new", none, none⟩ rfl

/-- C4: creating from an input with `quantity` and `price` absent persists
and returns a record with `quantity = 0` and `price = 0`, storing the given
`name` and `description` as supplied. -/
theorem create_item_defaults (s : Store) (now : Int) (input : CreateItem)
    (hq : input.quantity = none) (hp : input.price = none) :
    ∃ r s2, create_item s now input = .ok (r, s2) ∧
      r.quantity = 0 ∧ r.price = 0 ∧ r.name = input.name ∧
      r.description = input.description ∧ s2.rows = s.rows ++ [r] := by
  refine ⟨_, _, rfl, ?_, ?_, rfl, rfl, rfl⟩ <;> simp [hq, hp]

/-- Witness for C4 at a concrete input with quantity and price absent. -/
theorem create_item_defaults_witness :
    ∃ r s2, create_item sampleStore 9 ⟨"Gadget", none, none, none⟩ = .ok (r, s2) ∧
      r.quantity = 0 ∧ r.price = 0 ∧ r.name = "Gadget" ∧
      r.description = none ∧ s2.rows = sampleStore.rows ++ [r] :=
  create_item_defaults sampleStore 9 ⟨"Gadget", none, none, none⟩ rfl rfl

/-- C5: for an id matching no row, `get` returns `Ok(None)`, `update`
returns `Ok(None)` for every input, and `delete` returns `Ok(false)`;
none of them errors and the store is unchanged. -/
theorem not_found_is_not_an_error (s : Store) (id : Int)
    (h : ∀ it ∈ s.rows, it.id ≠ id) :
    get_item s id = .ok none ∧
    (∀ input, update_item s id input = .ok (none, s)) ∧
    delete_item s id = .ok (false, s) := by
  have hfind : s.rows.find? (fun it => it.id == id) = none := by
    rw [List.find?_eq_none]
    intro it hit
    simpa using h it hit
  refine ⟨?_, ?_, ?_⟩
  · simp [get_item, hfind]
  · intro input
    simp [update_item, get_item, hfind]
  · have hany : s.rows.any (fun it => it.id == id) = false := by
      simp only [List.any_eq_false]
      intro it hit
      simpa using h it hit
    have hfilter : s.rows.filter (fun it => !(it.id == id)) = s.rows := by
      rw [List.filter_eq_self]
      intro it hit
      simpa using h it hit
    simp [delete_item, hany, hfilter]

/-- Witness for C5 at a concrete store and an absent id. -/
theorem not_found_is_not_an_error_witness :
    get_item sampleStore 42 = .ok none ∧
    (∀ input, update_item sampleStore 42 input = .ok (none, sampleStore)) ∧
    delete_item sampleStore 42 = .ok (false, sampleStore) :=
  not_found_is_not_an_error sampleStore 42 (by decide)

/-- C6: `delete` succeeds; when it returns `true` a subsequent `get` of
the same id on the resulting store is empty, and it returns `true` exactly
when a row with that id existed. -/
theorem delete_removes_matching_rows (s : Store) (id : Int) :
    ∃ b s2, delete_item s id = .ok (b, s2) ∧
      (b = true → get_item s2 id = .ok none) ∧
      (b = true ↔ ∃ it ∈ s.rows, it.id = id) := by
  refine ⟨_, _, rfl, ?_, ?_⟩
  · intro _
    simp only [get_item, Except.ok.injEq]
    rw [List.find?_eq_none]
    intro it hit
    have hp := (List.mem_filter.mp hit).2
    simpa using hp
  · simp [List.any_eq_true]

/-- C7: `list` succeeds with a sequence that is a permutation of the
table's rows, sorted by non-decreasing id; an empty table yields the
empty sequence. -/
theorem list_items_ordered (s : Store) :
    ∃ l, list_items s = .ok l ∧ l.Perm s.rows ∧
      l.Sorted (fun a b => a.id ≤ b.id) ∧ (s.rows = [] → l = []) := by
  refine ⟨_, rfl, List.perm_insertionSort _ _, List.sorted_insertionSort _ _, ?_⟩
  intro h
  rw [h]
  rfl

/-- Auxiliary: `find?` over a map by an id-preserving row transformation
commutes with the transformation. -/
theorem find?_map_id_preserving (l : List Item) (id : Int)
    (g : Item → Item) (hg : ∀ it, (g it).id = it.id) :
    (l.map g).find? (fun it => it.id == id) =
      (l.find? (fun it => it.id == id)).map g := by
  have hc : ((fun it => it.id == id) ∘ g) = (fun it => it.id == id) := by
    funext it
    simp [Function.comp, hg]
  rw [List.find?_map, hc]

/-- C9: a successful update preserves `id` and `created_at`: the returned
record and the persisted row agree with the pre-update row on both, and
every row of the store keeps its `id` and `created_at`, rows with other
ids being left entirely unchanged. -/
theorem update_preserves_immutable_fields (s : Store) (id : Int)
    (input : UpdateItem) (I : Item)
    (h : get_item s id = .ok (some I)) :
    ∃ r s2, update_item s id input = .ok (some r, s2) ∧
      r.id = I.id ∧ r.created_at = I.created_at ∧
      get_item s2 id = .ok (some r) ∧
      List.Forall₂ (fun old new => new.id = old.id ∧
        new.created_at = old.created_at ∧ (old.id ≠ id → new = old))
        s.rows s2.rows := by
  have hf : s.rows.find? (fun it => it.id == id) = some I := by
    simpa [get_item] using h
  have hI : I.id = id := by simpa using List.find?_some hf
  unfold update_item
  rw [h]
  refine ⟨_, _, rfl, rfl, rfl, ?_, ?_⟩
  · simp only [get_item, Except.ok.injEq]
    rw [find?_map_id_preserving]
    · rw [hf]
      simp [hI]
    · intro it
      by_cases hit : it.id = id <;> simp [hit]
  · rw [List.forall₂_map_right_iff, List.forall₂_same]
    intro it _
    by_cases hit : it.id = id <;> simp [hit]

/-- Witness for C9 at a concrete one-row store and a price-only input. -/
theorem update_preserves_immutable_fields_witness :
    ∃ r s2, update_item sampleStore 1 ⟨none, none, none, some 3⟩
        = .ok (some r, s2) ∧
      r.id = sampleItem.id ∧ r.created_at = sampleItem.created_at ∧
      get_item s2 1 = .ok (some r) ∧
      List.Forall₂ (fun old new => new.id = old.id ∧
        new.created_at = old.created_at ∧ (old.id ≠ 1 → new = old))
        sampleStore.rows s2.rows :=
  update_preserves_immutable_fields sampleStore 1 ⟨none, none, none, some 3⟩
    sampleItem rfl

/-- C10: the web-layer update handler always supplies a name: the
`UpdateItem` it builds has `name = some form.name` (so the repository's
retain-name branch never fires: the merged record's name is always the
form's name), while `description`, `quantity` and `price` are passed
through and may still be absent. -/
theorem update_handler_always_supplies_name (form : ItemForm) :
    (update_item_handler_input form).name = some form.name ∧
    (update_item_handler_input form).description = form.description ∧
    (update_item_handler_input form).quantity = form.quantity ∧
    (update_item_handler_input form).price = form.price ∧
    (∀ s id I, get_item s id = .ok (some I) →
      ∃ r s2, update_item s id (update_item_handler_input form)
          = .ok (some r, s2) ∧ r.name = form.name) := by
  refine ⟨rfl, rfl, rfl, rfl, ?_⟩
  intro s id I h
  unfold update_item
  rw [h]
  exact ⟨_, _, rfl, rfl⟩

/-- Witness for C10 at a concrete form and the concrete one-row store. -/
theorem update_handler_always_supplies_name_witness :
    ∃ r s2, update_item sampleStore 1
        (update_item_handler_input ⟨"Renamed", none, none, none⟩)
        = .ok (some r, s2) ∧ r.name = "Renamed" :=
  (update_handler_always_supplies_name ⟨"Renamed", none, none, none⟩).2.2.2.2
    sampleStore 1 sampleItem rfl

/-- C8 counterexample: when `DATABASE_URL` is present but malformed, the
driver's connect step fails while parsing the string, and `get_db_pool`
surfaces that as the `Sqlx` variant (the spec's `StoreError` class), not
as a `ConfigError` — refuting the claim that an absent *or malformed*
connection string yields a `ConfigError`. -/
theorem get_db_pool_malformed_url_is_store_error :
    get_db_pool malformedEnv malformedConnect
      = .error (.Sqlx (.Configuration "invalid connection string")) ∧
    DbError.isConfigError (.Sqlx (.Configuration "invalid connection string"))
      = false :=
  ⟨rfl, rfl⟩

/-- C8 (amended): `get_db_pool` fails with the configuration variant
(`EnvVar`, the spec's `ConfigError`) exactly when reading `DATABASE_URL`
from the environment fails (absent or non-unicode); every failure of the
connect step — malformed connection string, unreachable target, rejected
authentication — surfaces as the `Sqlx` variant (the spec's
`StoreError`). -/
theorem get_db_pool_error_classification
    (env : String → Except VarError String)
    (connect : String → Option SqlxError) :
    (∀ e, env "DATABASE_URL" = .error e →
      get_db_pool env connect = .error (.EnvVar e) ∧
        DbError.isConfigError (.EnvVar e) = true) ∧
    (∀ url e, env "DATABASE_URL" = .ok url → connect url = some e →
      get_db_pool env connect = .error (.Sqlx e) ∧
        DbError.isConfigError (.Sqlx e) = false) := by
  constructor
  · intro e he
    refine ⟨?_, rfl⟩
    unfold get_db_pool
    rw [he]
  · intro url e hu hc
    refine ⟨?_, rfl⟩
    unfold get_db_pool
    rw [hu]
    dsimp only
    rw [hc]

/-- Witness for C8 (amended): an absent variable yields the `EnvVar`
(config) error; a present but malformed URL yields the `Sqlx` (store)
error. -/
theorem get_db_pool_error_classification_witness :
    (get_db_pool absentEnv malformedConnect = .error (.EnvVar .NotPresent) ∧
      DbError.isConfigError (.EnvVar .NotPresent) = true) ∧
    (get_db_pool malformedEnv malformedConnect
        = .error (.Sqlx (.Configuration "invalid connection string")) ∧
      DbError.isConfigError (.Sqlx (.Configuration "invalid connection string"))
        = false) :=
  ⟨(get_db_pool_error_classification absentEnv malformedConnect).1
      .NotPresent rfl,
   (get_db_pool_error_classification malformedEnv malformedConnect).2
      "this is not a url" (.Configuration "invalid connection string") rfl rfl⟩

end Crud2
